import Mathlib

/-!
Shallow embedding of the looker overlay engine (detection and classification
overlays) and of the Spotlight grid render callback of this repository.

Sources embedded:
- `app/packages/looker/src/overlays/classifications.ts` (two versions of the
  file are present in the repository; definitions for the first are suffixed
  `Old`, definitions for the second live in the `New` namespace).
- `app/packages/looker/src/overlays/detection.ts`
- `app/packages/looker/src/constants.ts`
- `app/packages/core/src/components/Actions/Export.tsx` (the Spotlight
  `render` callback of the `Lens` component).

TypeScript numbers are modelled as rationals (`ℚ`); TS `undefined` for an
optional value is modelled as `Option.none`; colors (strings produced by the
externally supplied color map) are modelled as natural-number codes.
-/

namespace Looker

abbrev Coordinates := ℚ × ℚ

abbrev Dimensions := ℚ × ℚ

/-- `BoundingBox = [x, y, w, h]` (state.ts). -/
abbrev BoundingBox := ℚ × ℚ × ℚ × ℚ

/-- Modelled from the spec: the `CONTAINS` enumeration of `overlays/base.ts`,
which is not under `src/`; the spec gives its three members as
`containsPoint(state) → {NONE, CONTENT, BORDER}`. -/
inductive CONTAINS where
  | NONE
  | CONTENT
  | BORDER
deriving DecidableEq, Repr

/-- In TypeScript the `CONTAINS` members are numbers, so a `containsPoint`
implementation can also return any other number: the first version of
`classifications.ts` returns the number `Infinity`.  This type is the common
codomain of the embedded `containsPoint` functions: an enumeration member, or
the number `Infinity`. -/
inductive ContainsValue where
  | enumVal (c : CONTAINS)
  | numInfinity
deriving DecidableEq, Repr

/-- `RegularLabel` of `overlays/base.ts` (the file is not under `src/`): a
stable id (read as `_id` by the first version of `classifications.ts` and as
`id` by the second, both modelled by the single field `id`), an optional
label string and an optional confidence.  A `NaN` confidence is folded into
`none`: `isNaN` is the only use the embedded code makes of the value's
NaN-ness. -/
structure RegularLabel where
  id : String
  label : Option String
  confidence : Option ℚ
deriving DecidableEq, Repr

/-- The slice of `BaseOptions` (state.ts) read by the embedded code.  The
active label-field list is called `activeLabels` in the first version of
`classifications.ts` and `activePaths` in the second; one field models both.
The color map is a function in TS whose identity is compared with `===` by
`drawMask`; it is modelled by an identity token applied through
`applyColorMap`.  `showLabel` is read by the overlays' `getLabelText`. -/
structure Options where
  activePaths : List String
  colorByLabel : Bool
  colorMap : ℕ
  selectedLabels : List String
  showConfidence : Bool
  showLabel : Bool
  filter : String → RegularLabel → Bool

/-- The slice of `BaseConfig` (state.ts) read by the embedded code. -/
structure Config where
  dimensions : Dimensions
  thumbnail : Bool

/-- The slice of `BaseState` (state.ts) read by the embedded code. -/
structure State where
  config : Config
  options : Options
  windowBBox : BoundingBox
  canvasBBox : BoundingBox
  pixelCoordinates : Coordinates
  strokeWidth : ℚ
  textPad : ℚ
  fontSize : ℚ

/-- `MASK_ALPHA` (constants.ts). -/
def MASK_ALPHA : ℚ := 2/5

/-- Modelled from the spec: `SELECTED_MASK_ALPHA` is imported by
`detection.ts` but absent from the `constants.ts` under `src/`; the spec only
requires a fixed alpha that is higher when the label is selected. -/
def SELECTED_MASK_ALPHA : ℚ := 7/10

/-- Modelled from the spec: the externally supplied color assignment function
(spec section 6), deterministic for a given key; the TS color map is a
closure, modelled as an identity token `cm` plus this fixed application
function producing a color code. -/
def applyColorMap (cm : ℕ) (key : Option String) : ℕ :=
  Nat.pair cm (match key with
    | none => 0
    | some s => 1 + (s.data.map Char.toNat).sum)

/-- Modelled from the spec: `get32BitColor` (color.ts, not under `src/`)
packs a color and an alpha into one 32-bit pixel value; the embedding only
needs the packing to be a fixed function of the pair. -/
def get32BitColor (color : ℕ) (alpha : ℚ) : ℕ :=
  Nat.pair color (Int.floor (alpha * 255)).toNat

/-- Modelled from the spec: `getRenderedScale` (util.ts, not under `src/`)
returns the scale factor from image pixels to rendered pixels; the spec
treats zoom as a pure scale-factor change, so the ratio of rendered width to
image width is used.  The claims below never depend on the particular value,
only on the stroke padding derived from it. -/
def getRenderedScale (rendered image : Dimensions) : ℚ :=
  rendered.1 / image.1

/-- Modelled from the spec: `isShown` (overlays/base.ts, not under `src/`)
defers to the externally supplied per-field label filter predicate
(spec section 6: the core does not implement filter logic, only calls it). -/
def isShown (s : State) (field : String) (label : RegularLabel) : Bool :=
  s.options.filter field label

/-- JS truthiness of an optional string: `undefined` and `""` are falsy. -/
def truthyStr : Option String → Bool
  | none => false
  | some s => s ≠ ""

/-- JS `a < b` on an optional string pair: comparing `undefined` with
anything yields `false` (the abstract relational comparison produces
`undefined`); two strings compare lexicographically. -/
def jsLtStr : Option String → Option String → Bool
  | some a, some b => a < b
  | _, _ => false

/-- JS `a > b` on an optional string pair (see `jsLtStr`). -/
def jsGtStr : Option String → Option String → Bool
  | some a, some b => b < a
  | _, _ => false

/-- One insertion step of the `Array.prototype.sort` model: the element is
placed before the first element the comparator orders it strictly before. -/
def jsInsert (cmp : α → α → Int) (x : α) : List α → List α
  | [] => [x]
  | y :: ys => if cmp x y < 0 then x :: y :: ys else y :: jsInsert cmp x ys

/-- Model of `Array.prototype.sort(cmp)`: a stable left-to-right insertion
sort.  ECMAScript requires the sort to be stable and, for consistent
comparators, ordered by the comparator, which this model satisfies; for an
inconsistent comparator (the ones in `classifications.ts` are inconsistent
across fields) the standard leaves the order implementation-defined, and on
the small inputs used below this model agrees with V8's TimSort. -/
def jsSort (cmp : α → α → Int) (l : List α) : List α :=
  l.foldl (fun acc x => jsInsert cmp x acc) []

/-- `Number.prototype.toFixed(2)`: the integer `n` minimizing the distance of
`n / 100` to the value, ties toward the larger `n`, printed with two decimal
digits (ECMAScript Number.prototype.toFixed with f = 2). -/
def toFixed2 (q : ℚ) : String :=
  let sign := if q < 0 then "-" else ""
  let n := (Int.floor (|q| * 100 + 1/2)).toNat
  let whole := n / 100
  let frac := n % 100
  sign ++ toString whole ++ "." ++
    (if frac < 10 then "0" ++ toString frac else toString frac)

/-- `ClassificationLabels` (classifications.ts): per-field lists of
classification labels, in field order. -/
abbrev ClassificationLabels := List (String × List RegularLabel)

/-- The `ClassificationsOverlay` instance state (both versions of
classifications.ts): the constructor-supplied labels and the bounding-box
cache written by `draw` (a JS object keyed by label id, modelled as an
association list). -/
structure ClassificationsOverlay where
  labels : ClassificationLabels
  labelBoundingBoxes : List (String × BoundingBox)

/-- `PointInfo` as produced by `ClassificationsOverlay.getPointInfo`. -/
structure PointInfo where
  field : String
  label : RegularLabel
  type : String
  color : ℕ
deriving DecidableEq, Repr

/-- `SelectData` (overlays/base.ts): the id and field a selection resolves
to. -/
structure SelectData where
  id : String
  field : String
deriving DecidableEq, Repr

/-- `ClassificationsOverlay.getColor` (identical in both versions of
classifications.ts): the color key is the label string under `colorByLabel`,
the field name otherwise. -/
def ClassificationsOverlay.getColor (s : State) (field : String)
    (label : RegularLabel) : ℕ :=
  applyColorMap s.options.colorMap
    (if s.options.colorByLabel then label.label else some field)

/-- The containment test of `getPointInfo` (second version of
classifications.ts): the cached normalized box is scaled by the image
dimensions and compared against the cursor's pixel coordinates with closed
inequalities. -/
def pointInScaledBox (s : State) (box : BoundingBox) : Bool :=
  let (w, h) := s.config.dimensions
  let (bx, by0, bw, bh) := box
  let (bx, by0, bw, bh) := (bx * w, by0 * h, bw * w, bh * h)
  let (px, py) := s.pixelCoordinates
  decide (px ≥ bx ∧ py ≥ by0 ∧ px ≤ bx + bw ∧ py ≤ by0 + bh)

namespace Old

/-- `ClassificationsOverlay.getFiltered` (first version of
classifications.ts): filters each field's labels by the visibility
predicate, keeping the outer field list intact. -/
def getFiltered (o : ClassificationsOverlay) (s : State) :
    ClassificationLabels :=
  o.labels.map (fun fl => (fl.1, fl.2.filter (fun label => isShown s fl.1 label)))

/-- The sort comparator of `getFilteredAndFlat` (first version of
classifications.ts, lines 147-156): same-field entries compare their label
strings with JS `<` / `>`; for entries of different fields the arrow function
falls off the end, returning `undefined`, which ECMAScript's SortCompare
coerces to `+0`. -/
def sortCompare (a b : String × RegularLabel) : Int :=
  if a.1 = b.1 then
    if jsLtStr a.2.label b.2.label then -1
    else if jsGtStr a.2.label b.2.label then 1
    else 0
  else 0

/-- `ClassificationsOverlay.getFilteredAndFlat` (first version of
classifications.ts) at `sort = true`: flatten the filtered per-field lists,
regroup by the active-field list (`state.options.activeLabels`), then sort
with `sortCompare`.  The source pushes each entry into a store keyed by the
active fields and throws if an entry's field is not active; the model drops
such entries, and the theorems below only use inputs whose fields are all
active. -/
def getFilteredAndFlat (o : ClassificationsOverlay) (s : State) :
    List (String × RegularLabel) :=
  let result := (getFiltered o s).foldl
    (fun acc fl => acc ++ fl.2.map (fun label => (fl.1, label))) []
  let regrouped := s.options.activePaths.foldl
    (fun acc field => acc ++ result.filter (fun e => e.1 = field)) []
  jsSort sortCompare regrouped

/-- `ClassificationsOverlay.getPointInfo` (first version of
classifications.ts): walks the filtered entries; a cached box is scaled by
the image dimensions with the stroke padding added to its width and height
(and not subtracted from its origin), and the first box containing the
cursor wins. -/
def getPointInfo (o : ClassificationsOverlay) (s : State) : Option PointInfo :=
  let filtered := getFilteredAndFlat o s
  let (w, h) := s.config.dimensions
  let (_, _, ww, wh) := s.windowBBox
  let pad := getRenderedScale (ww, wh) (w, h) * s.strokeWidth / 2
  filtered.findSome? (fun fl =>
    match o.labelBoundingBoxes.lookup fl.2.id with
    | none => none
    | some (bx, by0, bw, bh) =>
      let (bx, by0, bw, bh) := (bx * w, by0 * h, bw * w + pad, bh * h + pad)
      let (px, py) := s.pixelCoordinates
      if px ≥ bx ∧ py ≥ by0 ∧ px ≤ bx + bw ∧ py ≤ by0 + bh then
        some ⟨fl.1, fl.2, "Classification", ClassificationsOverlay.getColor s fl.1 fl.2⟩
      else none)

/-- `ClassificationsOverlay.containsPoint` (first version of
classifications.ts, lines 52-57): `CONTAINS.CONTENT` on a hit, and otherwise
`return Infinity` — the number `Infinity`, not a `CONTAINS` member (the
declared return type is `CONTAINS`; the second version of the file returns
`CONTAINS.NONE` here). -/
def containsPoint (o : ClassificationsOverlay) (s : State) : ContainsValue :=
  if (getPointInfo o s).isSome then ContainsValue.enumVal CONTAINS.CONTENT
  else ContainsValue.numInfinity

end Old

namespace New

/-- `ClassificationsOverlay.getFiltered` (second version of
classifications.ts): like the first version, but additionally drops labels
whose `label` string is falsy (`undefined` or `""`). -/
def getFiltered (o : ClassificationsOverlay) (s : State) :
    ClassificationLabels :=
  o.labels.map (fun fl =>
    (fl.1, fl.2.filter (fun label => isShown s fl.1 label && truthyStr label.label)))

/-- The sort comparator of `getFilteredAndFlat` (second version of
classifications.ts, lines 413-423): for same-field entries, `-1` when both
label strings are truthy and JS `<` orders them, `1` when JS `>` does, `0`
otherwise; for entries of different fields it returns `-1` regardless of
argument order. -/
def sortCompare (a b : String × RegularLabel) : Int :=
  if a.1 = b.1 then
    if truthyStr a.2.label && truthyStr b.2.label && jsLtStr a.2.label b.2.label then -1
    else if jsGtStr a.2.label b.2.label then 1
    else 0
  else -1

/-- `ClassificationsOverlay.getFilteredAndFlat` (second version of
classifications.ts) at the default `sort = true`: flatten the filtered
per-field lists, regroup by `state.options.activePaths`, then sort with
`sortCompare` (see `Old.getFilteredAndFlat` on the regrouping model). -/
def getFilteredAndFlat (o : ClassificationsOverlay) (s : State) :
    List (String × RegularLabel) :=
  let result := (getFiltered o s).foldl
    (fun acc fl => acc ++ fl.2.map (fun label => (fl.1, label))) []
  let regrouped := s.options.activePaths.foldl
    (fun acc field => acc ++ result.filter (fun e => e.1 = field)) []
  jsSort sortCompare regrouped

/-- `ClassificationsOverlay.isShown` (second version of classifications.ts):
true when `getFiltered` returns a non-empty (outer) list. -/
def isShownOverlay (o : ClassificationsOverlay) (s : State) : Bool :=
  decide (0 < (getFiltered o s).length)

/-- `ClassificationsOverlay.getPointInfo` (second version of
classifications.ts): walks the filtered-and-sorted entries and returns the
info of the first entry whose cached box (scaled by the image dimensions,
with no stroke padding) contains the cursor; `undefined` — modelled as
`none` — when no cached box contains it. -/
def getPointInfo (o : ClassificationsOverlay) (s : State) : Option PointInfo :=
  (getFilteredAndFlat o s).findSome? (fun fl =>
    match o.labelBoundingBoxes.lookup fl.2.id with
    | none => none
    | some box =>
      if pointInScaledBox s box then
        some ⟨fl.1, fl.2, "Classification", ClassificationsOverlay.getColor s fl.1 fl.2⟩
      else none)

/-- `ClassificationsOverlay.getSelectData` (second version of
classifications.ts): destructures the result of `getPointInfo`;  when that
result is `undefined` the destructuring throws a `TypeError`, modelled as
`none`. -/
def getSelectData (o : ClassificationsOverlay) (s : State) : Option SelectData :=
  (getPointInfo o s).map (fun i => ⟨i.label.id, i.field⟩)

/-- `ClassificationsOverlay.containsPoint` (second version of
classifications.ts, lines 296-301): `CONTAINS.CONTENT` on a hit,
`CONTAINS.NONE` otherwise. -/
def containsPoint (o : ClassificationsOverlay) (s : State) : ContainsValue :=
  if (getPointInfo o s).isSome then ContainsValue.enumVal CONTAINS.CONTENT
  else ContainsValue.enumVal CONTAINS.NONE

/-- `ClassificationsOverlay.getLabelText` (second version of
classifications.ts): the label string when truthy and `showLabel` is on,
followed — when `showConfidence` is on and the confidence is a non-NaN
number — by a space (if text is already present) and the confidence
formatted by `toFixed(2)` in parentheses. -/
def getLabelText (s : State) (label : RegularLabel) : String :=
  let text := if truthyStr label.label && s.options.showLabel
    then label.label.getD "" else ""
  if s.options.showConfidence && label.confidence.isSome then
    (if text ≠ "" then text ++ " " else text) ++ "(" ++
      toFixed2 (label.confidence.getD 0) ++ ")"
  else text

end New

/-- The decoded mask (`NumpyResult` of numpy.ts, which is not under `src/`):
a numeric buffer plus a `[height, width]` shape.  `detection.ts` deserializes
the label's mask string in the constructor; the embedding starts from the
decoded result. -/
structure NumpyResult where
  data : List ℕ
  shape : ℕ × ℕ
deriving DecidableEq, Repr

/-- `DetectionLabel` (detection.ts): a `RegularLabel` with a normalized
bounding box and an optional mask (here already decoded, see
`NumpyResult`). -/
structure DetectionLabel extends RegularLabel where
  bounding_box : BoundingBox
  mask : Option NumpyResult
deriving DecidableEq, Repr

/-- The `DetectionOverlay` instance state (detection.ts): the field and label
from the constructor, the deserialized mask, and the mutable slots
`labelBoundingBox` (written by `drawLabelText`), `colorMap`, `selected` and
`imageColors` (written by `drawMask`), all of which start `undefined`. -/
structure DetectionOverlay where
  field : String
  label : DetectionLabel
  mask : Option NumpyResult
  labelBoundingBox : Option BoundingBox
  colorMap : Option ℕ
  selected : Option Bool
  imageColors : Option (List ℕ)

/-- The `DetectionOverlay` constructor: stores the field and label and
deserializes the mask when present; the other slots start `undefined`. -/
def newDetectionOverlay (field : String) (label : DetectionLabel) :
    DetectionOverlay :=
  ⟨field, label, label.mask, none, none, none, none⟩

/-- `CoordinateOverlay.isSelected` (overlays/base.ts, not under `src/`;
identical to the in-`src/` `ClassificationsOverlay.isSelected`): membership
of the label's id in `state.options.selectedLabels`. -/
def DetectionOverlay.isSelected (o : DetectionOverlay) (s : State) : Bool :=
  s.options.selectedLabels.contains o.label.id

/-- Modelled from the spec: `CoordinateOverlay.getColor` (overlays/base.ts,
not under `src/`) applies the externally supplied color map to the label
string under `colorByLabel` and to the field name otherwise, exactly as the
in-`src/` `ClassificationsOverlay.getColor` does. -/
def DetectionOverlay.getColor (o : DetectionOverlay) (s : State) : ℕ :=
  applyColorMap s.options.colorMap
    (if s.options.colorByLabel then o.label.label else some o.field)

/-- The stroke padding used by `DetectionOverlay.containsPoint` and by the
first version of `ClassificationsOverlay.getPointInfo`:
`(getRenderedScale([ww, wh], [w, h]) * state.strokeWidth) / 2`. -/
def strokePad (s : State) : ℚ :=
  let (w, h) := s.config.dimensions
  let (_, _, ww, wh) := s.windowBBox
  getRenderedScale (ww, wh) (w, h) * s.strokeWidth / 2

/-- `DetectionOverlay.isInHeader` (detection.ts): false when no label header
box is cached; otherwise the cached normalized header box is scaled by the
image dimensions and tested against the cursor with closed inequalities. -/
def DetectionOverlay.isInHeader (o : DetectionOverlay) (s : State) : Bool :=
  match o.labelBoundingBox with
  | none => false
  | some (bx, by0, bw, bh) =>
    let (w, h) := s.config.dimensions
    let (px, py) := s.pixelCoordinates
    let (bx, by0, bw, bh) := (bx * w, by0 * h, bw * w, bh * h)
    decide (px ≥ bx ∧ py ≥ by0 ∧ px ≤ bx + bw ∧ py ≤ by0 + bh)

/-- `DetectionOverlay.containsPoint` (detection.ts, lines 48-66): CONTENT
when the cursor lies in the scaled bounding box whose width and height are
extended by the stroke padding, BORDER when it lies in the cached label
header box, NONE otherwise. -/
def DetectionOverlay.containsPoint (o : DetectionOverlay) (s : State) :
    ContainsValue :=
  let (w, h) := s.config.dimensions
  let pad := strokePad s
  let (bx, by0, bw, bh) := o.label.bounding_box
  let (bx, by0, bw, bh) := (bx * w, by0 * h, bw * w + pad, bh * h + pad)
  let (px, py) := s.pixelCoordinates
  if px ≥ bx ∧ py ≥ by0 ∧ px ≤ bx + bw ∧ py ≤ by0 + bh then
    ContainsValue.enumVal CONTAINS.CONTENT
  else if o.isInHeader s then ContainsValue.enumVal CONTAINS.BORDER
  else ContainsValue.enumVal CONTAINS.NONE

/-- The square of `distanceFromLineSegment` (util.ts, not under `src/`;
modelled from the spec: "minimum Euclidean distance in pixel space from the
current cursor to the nearest edge of the shape").  The point is projected
onto the segment with the projection parameter clamped to `[0, 1]`.  The
source takes a square root at the end; squares are kept here so that the
definition stays within `ℚ`, and since squaring is strictly monotone on
nonnegative reals, minimization over edges is unaffected. -/
def distanceFromLineSegmentSq (p a b : Coordinates) : ℚ :=
  let (px, py) := p
  let (ax, ay) := a
  let (bx, by0) := b
  let l2 := (bx - ax) ^ 2 + (by0 - ay) ^ 2
  if l2 = 0 then (px - ax) ^ 2 + (py - ay) ^ 2
  else
    let t := ((px - ax) * (bx - ax) + (py - ay) * (by0 - ay)) / l2
    let tc := max 0 (min 1 t)
    (px - (ax + tc * (bx - ax))) ^ 2 + (py - (ay + tc * (by0 - ay))) ^ 2

/-- `DetectionOverlay.getMouseDistance` (detection.ts), in squared form (see
`distanceFromLineSegmentSq`): `0` in the header region, otherwise the
minimum of the distances to the four edges of the bounding box scaled by the
image dimensions. -/
def DetectionOverlay.getMouseDistanceSq (o : DetectionOverlay) (s : State) :
    ℚ :=
  let (bx, by0, bw, bh) := o.label.bounding_box
  let (w, h) := s.config.dimensions
  let (px, py) := s.pixelCoordinates
  let (bx, by0, bw, bh) := (bx * w, by0 * h, bw * w, bh * h)
  if o.isInHeader s then 0
  else
    min (min (distanceFromLineSegmentSq (px, py) (bx, by0) (bx + bw, by0))
             (distanceFromLineSegmentSq (px, py) (bx + bw, by0) (bx + bw, by0 + bh)))
        (min (distanceFromLineSegmentSq (px, py) (bx + bw, by0 + bh) (bx, by0 + bh))
             (distanceFromLineSegmentSq (px, py) (bx, by0 + bh) (bx, by0)))

/-- `DetectionOverlay.getLabelText` (detection.ts): same computation as
`New.getLabelText`, reading the overlay's own label. -/
def DetectionOverlay.getLabelText (o : DetectionOverlay) (s : State) :
    String :=
  let text := if truthyStr o.label.label && s.options.showLabel
    then o.label.label.getD "" else ""
  if s.options.showConfidence && o.label.confidence.isSome then
    (if text ≠ "" then text ++ " " else text) ++ "(" ++
      toFixed2 (o.label.confidence.getD 0) ++ ")"
  else text

/-- The label-header box computed by `DetectionOverlay.drawLabelText`
(detection.ts): `none` (and the slot is cleared) when the label text is
empty; otherwise a normalized box sitting directly above the bounding box's
top-left corner, whose size is derived from the measured text width (an
external canvas metric, passed in here), the font size, the text padding and
the stroke width, relative to the canvas box. -/
def DetectionOverlay.drawLabelTextBox (o : DetectionOverlay) (s : State)
    (textWidth : ℚ) : Option BoundingBox :=
  if (o.getLabelText s) = "" then none
  else
    let (tlx, tly, _, _) := o.label.bounding_box
    let height := s.fontSize
    let bpad := s.textPad * 3 + s.strokeWidth
    let rHeight := (height + bpad) / s.canvasBBox.2.2.2
    some (tlx, tly - rHeight, (textWidth + bpad) / s.canvasBBox.2.2.1, rHeight)

/-- `getDetectionPoints` (detection.ts): the four normalized corners of each
label's bounding box. -/
def getDetectionPoints (labels : List DetectionLabel) : List Coordinates :=
  labels.foldl (fun points label =>
    let (tlx, tly, w, h) := label.bounding_box
    points ++ [(tlx, tly), (tlx + w, tly), (tlx + w, tly + h), (tlx, tly + h)]) []

/-- The tinting loop of `DetectionOverlay.drawMask`: a fresh zero-filled
pixel buffer in which every position holding a truthy (non-zero) mask value
receives the 32-bit color. -/
def tintMask (data : List ℕ) (bitColor : ℕ) : List ℕ :=
  data.map (fun v => if v ≠ 0 then bitColor else 0)

/-- `DetectionOverlay.drawMask` (detection.ts, lines 156-200), restricted to
its cache effect: returns the updated overlay and the pixel buffer drawn.
When the stored color map identity and selected flag both equal the current
ones, the cached buffer is copied into the fresh buffer (`imageColors.set`;
the source would throw if no buffer were cached, which cannot happen once a
color map is stored — the model falls back to the zero buffer); otherwise
the buffer is recomputed from the mask data with the current color and alpha
and cached together with the current pair.  Called by `draw` only when a
mask is present; the `none` branch is unreachable from it. -/
def DetectionOverlay.drawMaskStep (o : DetectionOverlay) (s : State) :
    DetectionOverlay × List ℕ :=
  match o.mask with
  | none => (o, [])
  | some m =>
    let selected := o.isSelected s
    if o.colorMap = some s.options.colorMap ∧ o.selected = some selected then
      (o, o.imageColors.getD (List.replicate m.data.length 0))
    else
      let bitColor := get32BitColor (o.getColor s)
        (if selected then SELECTED_MASK_ALPHA else MASK_ALPHA)
      let buf := tintMask m.data bitColor
      ({ o with colorMap := some s.options.colorMap,
                selected := some selected,
                imageColors := some buf }, buf)

namespace Spotlight

/-- The observable effect of one call of the `render` callback passed to the
Spotlight in `Export.tsx` (`Lens` component). -/
inductive RenderResult where
  | disabledExisting
  | reattachedExisting
  | constructedNew
  | softSkipped
  | threwError
deriving DecidableEq, Repr

/-- The stores captured by the `render` callback in `Export.tsx`:
`lookerStore` maps cell ids to renderer instances (modelled as identity
tokens), `sampleStore` holds the ids whose sample data has been stored by
the pagination callback, and `createLookerReady` models
`createLooker.current` being non-null. -/
structure Stores where
  lookerStore : List (ℕ × ℕ)
  sampleStore : List ℕ
  createLookerReady : Bool

/-- The `render(id, element, dimensions, soft, disable)` callback of
`Export.tsx` (lines 341-376): for an id with a stored renderer it disables
it when `disable` is set and re-attaches it otherwise, leaving the store
untouched; for other ids it throws when the looker factory or the sample is
missing, constructs and attaches a new renderer unless `soft`, and does
nothing when `soft`.  `element` and `dimensions` are only forwarded to
`attach` and play no role in the decision; the constructed renderer's token
is the cell id it is bound to. -/
def render (st : Stores) (id : ℕ) (_element : ℕ) (_dimensions : Dimensions)
    (soft disable : Bool) : RenderResult × Stores :=
  match (st.lookerStore.lookup id : Option ℕ) with
  | some _ =>
    if disable then (RenderResult.disabledExisting, st)
    else (RenderResult.reattachedExisting, st)
  | none =>
    if !(st.createLookerReady && st.sampleStore.contains id) then
      (RenderResult.threwError, st)
    else if !soft then
      (RenderResult.constructedNew,
        { st with lookerStore := (id, id) :: st.lookerStore })
    else (RenderResult.softSkipped, st)

end Spotlight

/-! Concrete fixtures used by counterexamples and witnesses. -/

/-- A filter predicate keeping every label. -/
def allPass : String → RegularLabel → Bool := fun _ _ => true

/-- Options with two active fields, no selection, all display toggles on. -/
def sampleOptions : Options :=
  ⟨["f", "g"], false, 5, [], true, true, allPass⟩

/-- A 100×100 image rendered 1:1 in a 100×100 window, stroke width 2 (so the
stroke padding is 1), text padding 4, font size 16, cursor at the origin. -/
def sampleState : State :=
  ⟨⟨(100, 100), false⟩, sampleOptions, (0, 0, 100, 100), (0, 0, 100, 100),
    (0, 0), 2, 4, 16⟩

/-- A classification label with value "a" on field "f". -/
def labelA : RegularLabel := ⟨"1", some "a", none⟩

/-- A classification label with value "b" on field "g". -/
def labelB : RegularLabel := ⟨"2", some "b", none⟩

/-- A classification label with no label value. -/
def labelNoValue : RegularLabel := ⟨"9", none, none⟩

/-- A classifications overlay holding `labelA` under field "f" and `labelB`
under field "g", with an empty bounding-box cache (no draw has happened). -/
def sampleClsOverlay : ClassificationsOverlay :=
  ⟨[("f", [labelA]), ("g", [labelB])], []⟩

/-! Theorems. -/

/-- C1: For every overlay variant and every state, `containsPoint(state)`
returns one of the three enumeration values NONE, CONTENT, BORDER and never
any other value.  The detection overlay and the second version of the
classifications overlay do; the first version of the classifications overlay
instead returns the number `Infinity` whenever `getPointInfo` produces
nothing (its declared return type is `CONTAINS`, and the second version
returns `CONTAINS.NONE` on the same branch), exhibited here on a concrete
overlay with an empty box cache. -/
theorem c1_containsPoint_range :
    (∀ (o : DetectionOverlay) (s : State),
      ∃ c, o.containsPoint s = ContainsValue.enumVal c)
    ∧ (∀ (o : ClassificationsOverlay) (s : State),
      ∃ c, New.containsPoint o s = ContainsValue.enumVal c)
    ∧ Old.containsPoint sampleClsOverlay sampleState = ContainsValue.numInfinity := by
  refine ⟨?_, ?_, by decide⟩
  · intro o s
    unfold DetectionOverlay.containsPoint
    dsimp only
    repeat' split
    all_goals exact ⟨_, rfl⟩
  · intro o s
    unfold New.containsPoint
    split
    all_goals exact ⟨_, rfl⟩

/-- C2: the claim says the sorted flattened sequence is ordered first by the
position of each label's field in the active-field list, then alphabetically
within a field.  On an overlay with one "a" label on field "f" and one "b"
label on field "g", active fields `["f", "g"]` and a filter keeping
everything, the second version of `getFilteredAndFlat` (whose comparator
returns `-1` for entries of different fields regardless of argument order)
yields the "g" entry first under the stable sort model, not the claimed
field order. -/
theorem c2_stacking_order_eval :
    New.getFilteredAndFlat sampleClsOverlay sampleState =
      [("g", labelB), ("f", labelA)]
    ∧ New.getFilteredAndFlat sampleClsOverlay sampleState ≠
      [("f", labelA), ("g", labelB)] := by
  exact ⟨by decide, by decide⟩

/-- C8: in the sort comparator of the second version of
`getFilteredAndFlat`, two same-field entries at least one of whose label
values is `undefined` compare as `0` (in both argument orders), so a stable
sort keeps their relative input order. -/
theorem c8_comparator_undefined_zero :
    ∀ a b : String × RegularLabel, a.1 = b.1 →
      a.2.label = none ∨ b.2.label = none →
      New.sortCompare a b = 0 ∧ New.sortCompare b a = 0 := by
  intro a b hf h
  unfold New.sortCompare
  rcases h with h | h
  · cases hb : b.2.label <;>
      simp [hf, h, hb, truthyStr, jsGtStr, jsLtStr]
  · cases ha : a.2.label <;>
      simp [hf, h, ha, truthyStr, jsGtStr, jsLtStr]

/-- C8 witness: the comparator at a concrete same-field pair with one
`undefined` label value. -/
theorem c8_witness :
    ("f", labelNoValue).1 = ("f", labelA).1
    ∧ ("f", labelNoValue).2.label = none
    ∧ New.sortCompare ("f", labelNoValue) ("f", labelA) = 0
    ∧ New.sortCompare ("f", labelA) ("f", labelNoValue) = 0 :=
  ⟨rfl, rfl,
    (c8_comparator_undefined_zero ("f", labelNoValue) ("f", labelA) rfl
      (Or.inl rfl)).1,
    (c8_comparator_undefined_zero ("f", labelNoValue) ("f", labelA) rfl
      (Or.inl rfl)).2⟩

/-- C9: the second version's `ClassificationsOverlay.isShown` is true
exactly when the overlay was constructed with a non-empty field-entry list:
`getFiltered` maps over the field entries, so the outer length — the only
thing `isShown` tests — is independent of the filter and of the state. -/
theorem c9_isShown_iff_nonempty_fields :
    ∀ (o : ClassificationsOverlay) (s : State),
      New.isShownOverlay o s = !o.labels.isEmpty := by
  intro o s
  unfold New.isShownOverlay New.getFiltered
  cases o.labels <;> simp

/-- C4: for a cell id with a stored renderer, the grid's `render` callback
never constructs a new renderer: it reports `disable()` on the existing
instance when the disable flag is set and re-attaches it otherwise, leaving
the stores untouched; and for an id with no stored renderer, no renderer is
constructed when `soft` is set (the call either throws on a missing
factory/sample or does nothing). -/
theorem c4_render_reuse :
    ∀ (st : Spotlight.Stores) (id element : ℕ) (dims : Dimensions)
      (soft dis : Bool),
      ((st.lookerStore.lookup id).isSome = true →
        (Spotlight.render st id element dims soft dis).1 =
          (if dis then Spotlight.RenderResult.disabledExisting
            else Spotlight.RenderResult.reattachedExisting)
        ∧ (Spotlight.render st id element dims soft dis).2 = st)
      ∧ (st.lookerStore.lookup id = none → soft = true →
        (Spotlight.render st id element dims soft dis).1 ≠
          Spotlight.RenderResult.constructedNew
        ∧ (Spotlight.render st id element dims soft dis).2 = st) := by
  intro st id element dims soft dis
  constructor
  · intro h
    unfold Spotlight.render
    cases hl : (st.lookerStore.lookup id : Option ℕ) with
    | none => rw [hl] at h; simp at h
    | some v => cases dis <;> simp
  · intro h hsoft
    unfold Spotlight.render
    rw [h, hsoft]
    cases hc : (st.createLookerReady && st.sampleStore.contains id) <;> simp

/-- A store holding a renderer for cell 1 (token 1), its sample, and a live
looker factory. -/
def sampleStores : Spotlight.Stores := ⟨[(1, 1)], [1], true⟩

/-- C4 witness: the callback on a stored id with the disable flag set. -/
theorem c4_witness :
    (sampleStores.lookerStore.lookup 1).isSome = true
    ∧ ((Spotlight.render sampleStores 1 0 (0, 0) false true).1 =
        (if true then Spotlight.RenderResult.disabledExisting
          else Spotlight.RenderResult.reattachedExisting)
      ∧ (Spotlight.render sampleStores 1 0 (0, 0) false true).2 = sampleStores) :=
  ⟨by decide,
    (c4_render_reuse sampleStores 1 0 (0, 0) false true).1 (by decide)⟩

/-- C7: for every state with `showConfidence` enabled and every label whose
confidence is a (non-NaN) number `c`, the label text of both the detection
overlay and the second-version classifications overlay ends with `c`
formatted to two decimal places in parentheses; when the confidence is
absent (or NaN, folded into `none`), the text is just the label part, with
nothing appended. -/
theorem c7_confidence_text :
    ∀ (s : State) (o : DetectionOverlay),
      (∀ c : ℚ, s.options.showConfidence = true → o.label.confidence = some c →
        (∃ pre, o.getLabelText s = pre ++ "(" ++ toFixed2 c ++ ")")
        ∧ (∃ pre, New.getLabelText s o.label.toRegularLabel =
            pre ++ "(" ++ toFixed2 c ++ ")"))
      ∧ (o.label.confidence = none →
        o.getLabelText s =
          (if truthyStr o.label.label && s.options.showLabel
            then o.label.label.getD "" else "")
        ∧ New.getLabelText s o.label.toRegularLabel =
          (if truthyStr o.label.label && s.options.showLabel
            then o.label.label.getD "" else "")) := by
  intro s o
  constructor
  · intro c hsc hc
    constructor
    · unfold DetectionOverlay.getLabelText
      rw [hsc, hc]
      simp only [Option.isSome_some, Bool.and_true, if_true, Option.getD_some]
      exact ⟨_, rfl⟩
    · unfold New.getLabelText
      have hc2 : o.label.toRegularLabel.confidence = some c := hc
      rw [hsc, hc2]
      simp only [Option.isSome_some, Bool.and_true, if_true, Option.getD_some]
      exact ⟨_, rfl⟩
  · intro hc
    have hc2 : o.label.toRegularLabel.confidence = none := hc
    constructor
    · unfold DetectionOverlay.getLabelText
      rw [hc]
      simp
    · unfold New.getLabelText
      rw [hc2]
      simp

/-- A detection overlay on field "f" whose label reads "cat" with
confidence 1/2 and occupies the upper-left quadrant. -/
def overlayCat : DetectionOverlay :=
  newDetectionOverlay "f" ⟨⟨"c1", some "cat", some (1/2)⟩, (0, 0, 1/2, 1/2), none⟩

/-- C7 witness: the label texts of `overlayCat` under `sampleState` (where
`showConfidence` is on) end in "(0.50)". -/
theorem c7_witness :
    sampleState.options.showConfidence = true
    ∧ (∃ pre, overlayCat.getLabelText sampleState =
        pre ++ "(" ++ toFixed2 (1/2) ++ ")")
    ∧ (∃ pre, New.getLabelText sampleState overlayCat.label.toRegularLabel =
        pre ++ "(" ++ toFixed2 (1/2) ++ ")") :=
  ⟨rfl,
    ((c7_confidence_text sampleState overlayCat).1 (1/2) rfl rfl).1,
    ((c7_confidence_text sampleState overlayCat).1 (1/2) rfl rfl).2⟩

/-- C10: `getSelectData` (second version) succeeds only when some filtered
label's cached bounding box contains the cursor: whenever every cached box
of a filtered entry misses the cursor — in particular whenever the box cache
is empty, as before any draw — `getPointInfo` returns no value and
`getSelectData` fails (the destructuring of `undefined`, modelled as
`none`). -/
theorem c10_getSelectData_precondition :
    ∀ (o : ClassificationsOverlay) (s : State),
      (∀ fl ∈ New.getFilteredAndFlat o s, ∀ b,
        o.labelBoundingBoxes.lookup fl.2.id = some b →
        pointInScaledBox s b = false) →
      New.getPointInfo o s = none ∧ New.getSelectData o s = none := by
  intro o s h
  have hp : New.getPointInfo o s = none := by
    unfold New.getPointInfo
    rw [List.findSome?_eq_none_iff]
    intro fl hfl
    cases hb : o.labelBoundingBoxes.lookup fl.2.id with
    | none => simp
    | some b => simp [hb, h fl hfl b hb]
  refine ⟨hp, ?_⟩
  unfold New.getSelectData
  rw [hp]
  rfl

/-- C10 witness: `sampleClsOverlay` has an empty box cache, so under
`sampleState` every lookup fails vacuously and both calls return nothing. -/
theorem c10_witness :
    New.getPointInfo sampleClsOverlay sampleState = none
    ∧ New.getSelectData sampleClsOverlay sampleState = none :=
  c10_getSelectData_precondition sampleClsOverlay sampleState
    (by intro fl hfl b hb; simp [sampleClsOverlay] at hb)

/-- The detection label of the C6 scenario: `bounding_box = [0.1, 0.1, 0.2,
0.3]`. -/
def label6 : DetectionLabel :=
  ⟨⟨"d6", some "obj", none⟩, (1/10, 1/10, 2/10, 3/10), none⟩

/-- C6: with image dimensions `[1000, 500]`, the overlay of `label6` scales
its normalized box to the pixel rectangle `[100, 50, 200, 150]`:
`getMouseDistance` (squared model) is the minimum of the distances to the
four edges of exactly that rectangle (whenever the cursor is not in a cached
header, e.g. none is cached), and `getPoints` returns the four normalized
corners whose scaled images are that rectangle's corners. -/
theorem c6_detection_geometry :
    ∀ (s : State) (o : DetectionOverlay),
      s.config.dimensions = (1000, 500) →
      o.label = label6 → o.labelBoundingBox = none →
      (o.getMouseDistanceSq s =
        min (min (distanceFromLineSegmentSq s.pixelCoordinates (100, 50) (300, 50))
                 (distanceFromLineSegmentSq s.pixelCoordinates (300, 50) (300, 200)))
            (min (distanceFromLineSegmentSq s.pixelCoordinates (300, 200) (100, 200))
                 (distanceFromLineSegmentSq s.pixelCoordinates (100, 200) (100, 50))))
      ∧ getDetectionPoints [label6] =
          [(1/10, 1/10), (3/10, 1/10), (3/10, 4/10), (1/10, 4/10)]
      ∧ (getDetectionPoints [label6]).map (fun c => (c.1 * 1000, c.2 * 500)) =
          [(100, 50), (300, 50), (300, 200), (100, 200)] := by
  intro s o hd hl hbox
  refine ⟨?_, by norm_num [getDetectionPoints, label6],
    by norm_num [getDetectionPoints, label6]⟩
  obtain ⟨px, py, hp⟩ : ∃ px py, s.pixelCoordinates = (px, py) :=
    ⟨s.pixelCoordinates.1, s.pixelCoordinates.2, rfl⟩
  unfold DetectionOverlay.getMouseDistanceSq DetectionOverlay.isInHeader
  rw [hl, hbox, hd, hp]
  norm_num [label6]

/-- The state of the C6 scenario: a 1000×500 image, cursor at the origin. -/
def state6 : State :=
  { sampleState with config := ⟨(1000, 500), false⟩, pixelCoordinates := (0, 0) }

/-- The overlay of the C6 scenario, fresh from the constructor (no cached
header box). -/
def overlay6 : DetectionOverlay := newDetectionOverlay "f" label6

/-- C6 witness: the scenario at the concrete state `state6`. -/
theorem c6_witness :
    state6.config.dimensions = (1000, 500)
    ∧ overlay6.label = label6
    ∧ overlay6.labelBoundingBox = none
    ∧ (overlay6.getMouseDistanceSq state6 =
        min (min (distanceFromLineSegmentSq state6.pixelCoordinates (100, 50) (300, 50))
                 (distanceFromLineSegmentSq state6.pixelCoordinates (300, 50) (300, 200)))
            (min (distanceFromLineSegmentSq state6.pixelCoordinates (300, 200) (100, 200))
                 (distanceFromLineSegmentSq state6.pixelCoordinates (100, 200) (100, 50)))
      ∧ getDetectionPoints [label6] =
          [(1/10, 1/10), (3/10, 1/10), (3/10, 4/10), (1/10, 4/10)]
      ∧ (getDetectionPoints [label6]).map (fun c => (c.1 * 1000, c.2 * 500)) =
          [(100, 50), (300, 50), (300, 200), (100, 200)]) :=
  ⟨rfl, rfl, rfl, c6_detection_geometry state6 overlay6 rfl rfl rfl⟩

/-- The detection label of the C3 counterexample: the box occupies the
center quadrant of the image. -/
def label3 : DetectionLabel :=
  ⟨⟨"d3", some "cat", none⟩, (1/2, 1/2, 1/4, 1/4), none⟩

/-- The C3 overlay fresh from the constructor. -/
def overlay3base : DetectionOverlay := newDetectionOverlay "f" label3

/-- The C3 state: `sampleState` with the cursor at `(50, 30)` — above the
scaled box `[50, 50, 25, 25]` and more than the stroke padding (1) away from
it, inside the label header band. -/
def state3 : State := { sampleState with pixelCoordinates := (50, 30) }

/-- The C3 overlay after a draw has cached the label-header box computed by
`drawLabelText` (measured text width 20). -/
def overlay3 : DetectionOverlay :=
  { overlay3base with
    labelBoundingBox := overlay3base.drawLabelTextBox state3 20 }

/-- C3 counterexample: at `state3` the cursor lies outside the scaled box
expanded by the stroke padding ε on every side (its y-coordinate is below
even `b.y · h − ε`), yet `containsPoint` returns BORDER — the cached label
header region — and not NONE, refuting the claim as stated. -/
theorem c3_border_outside_epsilon :
    state3.pixelCoordinates.2 <
      label3.bounding_box.2.1 * state3.config.dimensions.2 - strokePad state3
    ∧ overlay3.containsPoint state3 = ContainsValue.enumVal CONTAINS.BORDER
    ∧ ContainsValue.enumVal CONTAINS.BORDER ≠ ContainsValue.enumVal CONTAINS.NONE := by
  refine ⟨?_, ?_, by decide⟩
  · norm_num [state3, sampleState, label3, strokePad, getRenderedScale,
      sampleOptions]
  · have hbox : overlay3.labelBoundingBox = some (1/2, 1/5, 17/50, 3/10) := by
      norm_num [overlay3, overlay3base, newDetectionOverlay,
        DetectionOverlay.drawLabelTextBox, DetectionOverlay.getLabelText,
        state3, sampleState, label3, truthyStr, sampleOptions]
      intro h
      exact absurd h (by decide)
    have hih : overlay3.isInHeader state3 = true := by
      unfold DetectionOverlay.isInHeader
      rw [hbox]
      norm_num [state3, sampleState]
    unfold DetectionOverlay.containsPoint
    rw [hih]
    have hlab : overlay3.label = label3 := rfl
    rw [hlab]
    norm_num [state3, sampleState, label3, strokePad, getRenderedScale,
      sampleOptions]

/-- C3 (amended): `containsPoint` returns CONTENT at the scaled centroid of
the normalized box, and returns NONE for a cursor outside the box expanded
by the stroke padding ε on every side provided the cursor is also not inside
the cached label-header region (which sits above the box and is what the
counterexample hits; with no cached header box the proviso always holds). -/
theorem c3_centroid_content_outside_none :
    ∀ (o : DetectionOverlay) (s : State) (bx by0 bw bh w h px py : ℚ),
      o.label.bounding_box = (bx, by0, bw, bh) →
      s.config.dimensions = (w, h) →
      s.pixelCoordinates = (px, py) →
      0 ≤ strokePad s → 0 ≤ bw * w → 0 ≤ bh * h →
      ((px = (bx + bw / 2) * w ∧ py = (by0 + bh / 2) * h →
          o.containsPoint s = ContainsValue.enumVal CONTAINS.CONTENT)
        ∧ ((px < bx * w - strokePad s ∨ px > bx * w + bw * w + strokePad s
              ∨ py < by0 * h - strokePad s ∨ py > by0 * h + bh * h + strokePad s) →
            o.isInHeader s = false →
            o.containsPoint s = ContainsValue.enumVal CONTAINS.NONE)) := by
  intro o s bx by0 bw bh w h px py hb hd hp hpad hbw hbh
  unfold DetectionOverlay.containsPoint
  rw [hb, hd, hp]
  dsimp only
  constructor
  · rintro ⟨hx, hy⟩
    subst hx
    subst hy
    rw [if_pos ⟨by nlinarith, by nlinarith, by nlinarith, by nlinarith⟩]
  · intro hout hhead
    rw [if_neg, hhead]
    · simp
    · rintro ⟨h1, h2, h3, h4⟩
      rcases hout with h | h | h | h <;> linarith

/-- C3 witness: the amended theorem at `overlay3base` (no cached header) and
a state whose cursor is at the scaled centroid of `label3`. -/
theorem c3_witness :
    (0 ≤ strokePad { sampleState with pixelCoordinates := (125/2, 125/2) }
      ∧ ((125 : ℚ)/2 = (1/2 + (1/4) / 2) * 100 ∧ (125 : ℚ)/2 = (1/2 + (1/4) / 2) * 100))
    ∧ overlay3base.containsPoint
        { sampleState with pixelCoordinates := (125/2, 125/2) } =
        ContainsValue.enumVal CONTAINS.CONTENT :=
  ⟨⟨by norm_num [strokePad, sampleState, getRenderedScale],
    by norm_num, by norm_num⟩,
    (c3_centroid_content_outside_none overlay3base
      { sampleState with pixelCoordinates := (125/2, 125/2) }
      (1/2) (1/2) (1/4) (1/4) 100 100 (125/2) (125/2)
      rfl rfl rfl
      (by norm_num [strokePad, sampleState, getRenderedScale])
      (by norm_num) (by norm_num)).1
    (by norm_num)⟩

/-- C5 (amended): after each `drawMask` call the cached buffer equals the
mask tinted with the color and alpha computed at the most recent
recomputation: when the stored (colorMap identity, selected flag) pair
matches the current one the overlay is left untouched and the cached buffer
is reused unmodified, and otherwise the buffer is recomputed from the mask
data with the color and alpha of the current state and cached together with
the pair.  (The recomputed color also depends on the `colorByLabel` flag,
which is not part of the cache key — see the counterexample.) -/
theorem c5_drawMask_cache :
    ∀ (o : DetectionOverlay) (s : State) (m : NumpyResult),
      o.mask = some m →
      ((o.colorMap = some s.options.colorMap
          ∧ o.selected = some (o.isSelected s) →
        (o.drawMaskStep s).1 = o
        ∧ (o.drawMaskStep s).2 =
            o.imageColors.getD (List.replicate m.data.length 0))
      ∧ (¬(o.colorMap = some s.options.colorMap
            ∧ o.selected = some (o.isSelected s)) →
        (o.drawMaskStep s).2 =
          tintMask m.data (get32BitColor (o.getColor s)
            (if o.isSelected s then SELECTED_MASK_ALPHA else MASK_ALPHA))
        ∧ (o.drawMaskStep s).1.imageColors = some ((o.drawMaskStep s).2)
        ∧ (o.drawMaskStep s).1.colorMap = some s.options.colorMap
        ∧ (o.drawMaskStep s).1.selected = some (o.isSelected s))) := by
  intro o s m hm
  unfold DetectionOverlay.drawMaskStep
  rw [hm]
  dsimp only
  constructor
  · intro h
    rw [if_pos h]
    exact ⟨rfl, rfl⟩
  · intro h
    rw [if_neg h]
    exact ⟨rfl, rfl, rfl, rfl⟩

/-- The C5 mask: one truthy pixel. -/
def mask5 : NumpyResult := ⟨[1], (1, 1)⟩

/-- The C5 label: "cat" on field "animals", with `mask5`. -/
def label5 : DetectionLabel :=
  ⟨⟨"d5", some "cat", none⟩, (0, 0, 1, 1), some mask5⟩

/-- The C5 overlay fresh from the constructor. -/
def overlay5 : DetectionOverlay := newDetectionOverlay "animals" label5

/-- The C5 second state: same color map identity and selection as
`sampleState`, but with `colorByLabel` switched on, so the color key changes
from the field "animals" to the label "cat". -/
def state5b : State :=
  { sampleState with options := { sampleOptions with colorByLabel := true } }

/-- The C5 overlay after a first `drawMask` under `sampleState` has cached
the tint for the field-keyed color. -/
def overlay5b : DetectionOverlay := (overlay5.drawMaskStep sampleState).1

/-- The 32-bit packing at `MASK_ALPHA` in closed form. -/
theorem get32BitColor_maskAlpha :
    ∀ c : ℕ, get32BitColor c MASK_ALPHA = Nat.pair c 102 := by
  intro c
  unfold get32BitColor MASK_ALPHA
  have h : (2/5 : ℚ) * 255 = ((102 : ℤ) : ℚ) := by norm_num
  rw [h, Int.floor_intCast]
  rfl

/-- C5 counterexample: under `state5b` the stored (colorMap identity,
selected) pair matches the current one, so the call reuses the cached
buffer — but that buffer is the mask tinted with the previous call's
field-keyed color, not with the color the current state determines, refuting
the claim that the buffer always equals the mask tinted with the color
determined by the current pair. -/
theorem c5_stale_color_counterexample :
    (overlay5b.colorMap = some state5b.options.colorMap
      ∧ overlay5b.selected = some (overlay5b.isSelected state5b))
    ∧ (overlay5b.drawMaskStep state5b).2 ≠
        tintMask mask5.data
          (get32BitColor (overlay5b.getColor state5b) MASK_ALPHA)
    ∧ (overlay5b.drawMaskStep state5b).1.imageColors ≠
        some (tintMask mask5.data
          (get32BitColor (overlay5b.getColor state5b) MASK_ALPHA)) := by
  have hL : (overlay5b.drawMaskStep state5b).2 =
      [get32BitColor (applyColorMap 5 (some "animals")) MASK_ALPHA] := rfl
  have hC : (overlay5b.drawMaskStep state5b).1.imageColors =
      some [get32BitColor (applyColorMap 5 (some "animals")) MASK_ALPHA] := rfl
  have hR : tintMask mask5.data
      (get32BitColor (overlay5b.getColor state5b) MASK_ALPHA) =
      [get32BitColor (applyColorMap 5 (some "cat")) MASK_ALPHA] := rfl
  refine ⟨⟨by decide, by decide⟩, ?_, ?_⟩
  · rw [hL, hR, get32BitColor_maskAlpha, get32BitColor_maskAlpha]
    decide
  · rw [hC, hR, get32BitColor_maskAlpha, get32BitColor_maskAlpha]
    decide

/-- C5 witness: the amended theorem at the fresh `overlay5` (empty cache, so
the pair mismatches) under `sampleState`: the first call computes the tinted
buffer from the mask data and caches it. -/
theorem c5_witness :
    overlay5.mask = some mask5
    ∧ ¬(overlay5.colorMap = some sampleState.options.colorMap
        ∧ overlay5.selected = some (overlay5.isSelected sampleState))
    ∧ (overlay5.drawMaskStep sampleState).2 =
        tintMask mask5.data (get32BitColor (overlay5.getColor sampleState)
          (if overlay5.isSelected sampleState then SELECTED_MASK_ALPHA
            else MASK_ALPHA))
    ∧ (overlay5.drawMaskStep sampleState).1.imageColors =
        some ((overlay5.drawMaskStep sampleState).2) :=
  ⟨rfl, by decide,
    ((c5_drawMask_cache overlay5 sampleState mask5 rfl).2 (by decide)).1,
    ((c5_drawMask_cache overlay5 sampleState mask5 rfl).2 (by decide)).2.1⟩

end Looker
